import Mathlib

/-!
Shallow embedding of `src/backend/src/main.rs` (tomoyuki-11/the_todo), the
multi-tenant MongoDB variant of the todo service: data model (`Todo`,
`NewTodo`, `UpdateTodoPayload`), the identity extractor (`currentUserId`),
the MongoDB collection primitives the handlers invoke (`findByUser`,
`updateOne`, `deleteOne`, ObjectId string parsing), and the four request
handlers with their routing wrappers. The MongoDB driver is modelled as an
oracle: each fallible driver call takes an explicit success/failure input,
and a successful `insert_one` receives the store-generated ObjectId as an
explicit input. ObjectIds are modelled as natural numbers (the value of the
24-hex-digit identifier string).
-/

namespace TheTodo

/-- A todo document as stored in the `todos` collection and serialized to
clients (struct `Todo` in main.rs). `id` models the optional BSON `_id`
ObjectId; it is `none` only on a document prepared before insertion
(`skip_serializing_if = "Option::is_none"`). -/
structure Todo where
  id : Option Nat
  user_id : String
  title : String
  done : Bool
  deriving DecidableEq, Repr

/-- The create-request payload type deserialized by serde (struct `NewTodo`
in main.rs): a single required `title` field. -/
structure NewTodo where
  title : String
  deriving DecidableEq, Repr

/-- The update-request payload (struct `UpdateTodoPayload` in main.rs). -/
structure UpdateTodoPayload where
  done : Bool
  deriving DecidableEq, Repr

/-- The raw JSON object a client may send to POST /todos, before serde
deserializes it into `NewTodo`: `title` may be absent, and a client may also
supply a `done` field, which `NewTodo` does not declare (serde ignores
unknown fields by default, so it is dropped). -/
structure RawCreateBody where
  title : Option String
  done : Option Bool
  deriving DecidableEq, Repr

/-- serde deserialization of `NewTodo` from a well-formed JSON object:
succeeds iff the required `title` field is present; any `done` field (or
other unknown field) is ignored. -/
def parseNewTodo (b : RawCreateBody) : Option NewTodo :=
  b.title.map (fun t => { title := t })

/-- The `x-user-id` request header as the extractor sees it: absent,
present but with bytes that `HeaderValue::to_str` rejects (non-visible
ASCII), or present with a decodable string value. -/
inductive HeaderValue where
  | absent
  | invalidBytes
  | value (s : String)
  deriving DecidableEq, Repr

/-- `CurrentUserId::from_request_parts` in main.rs:
`parts.headers.get("x-user-id").and_then(|v| v.to_str().ok()).ok_or((401, msg))`.
An absent header, or one whose bytes fail `to_str`, is rejected with 401;
any decodable value — including the empty string — becomes the identity. -/
def currentUserId : HeaderValue → Except (Nat × String) String
  | HeaderValue.absent => Except.error (401, "x-user-id header is required")
  | HeaderValue.invalidBytes => Except.error (401, "x-user-id header is required")
  | HeaderValue.value s => Except.ok s

/-- `ObjectId::parse_str`: succeeds exactly on a 24-character hexadecimal
string; the resulting ObjectId is modelled as the numeric value. -/
def isHexChar (c : Char) : Bool :=
  (48 ≤ c.toNat && c.toNat ≤ 57) ||
  (97 ≤ c.toNat && c.toNat ≤ 102) ||
  (65 ≤ c.toNat && c.toNat ≤ 70)

/-- Numeric value of one hexadecimal digit character. -/
def hexDigitVal (c : Char) : Nat :=
  if 48 ≤ c.toNat && c.toNat ≤ 57 then c.toNat - 48
  else if 97 ≤ c.toNat && c.toNat ≤ 102 then c.toNat - 87
  else c.toNat - 55

/-- `ObjectId::parse_str(&id)`: `some oid` on a well-formed 24-hex-digit
identifier string, `none` otherwise. -/
def parseObjectId (s : String) : Option Nat :=
  if s.length == 24 && s.data.all isHexChar then
    some (s.data.foldl (fun acc c => acc * 16 + hexDigitVal c) 0)
  else none

/-- The MongoDB filter `doc! { "_id": oid, "user_id": &user_id }` used by
both `update_todo` and `delete_todo`. -/
def matchesFilter (oid : Nat) (uid : String) (t : Todo) : Bool :=
  t.id == some oid && t.user_id == uid

/-- `collection.find(doc! {"user_id": &user_id})` drained through the
cursor: every document of the collection whose `user_id` equals the caller's. -/
def findByUser (store : List Todo) (uid : String) : List Todo :=
  store.filter (fun t => t.user_id == uid)

/-- `collection.update_one(filter, {"$set": {"done": d}})`: sets `done` on
the first (in MongoDB: at most one, identifiers being unique) document
matching the filter; returns the matched count together with the updated
collection. -/
def updateOne : List Todo → Nat → String → Bool → Nat × List Todo
  | [], _, _, _ => (0, [])
  | t :: rest, oid, uid, d =>
    if matchesFilter oid uid t then
      (1, { t with done := d } :: rest)
    else
      let r := updateOne rest oid uid d
      (r.1, t :: r.2)

/-- `collection.delete_one(filter)`: removes the first (at most one)
document matching the filter; returns the deleted count together with the
updated collection. -/
def deleteOne : List Todo → Nat → String → Nat × List Todo
  | [], _, _ => (0, [])
  | t :: rest, oid, uid =>
    if matchesFilter oid uid t then
      (1, rest)
    else
      let r := deleteOne rest oid uid
      (r.1, t :: r.2)

/-- The point at which the storage oracle makes GET /todos fail: the
`find` call, a `cursor.advance`, or `deserialize_current`. -/
inductive GetFail where
  | find
  | advance
  | deserialize
  deriving DecidableEq, Repr

/-- Outcome of GET /todos: an HTTP response (status, optional JSON body),
or a handler panic (the handler unwinds via `.expect` and produces no HTTP
response at all). GET never modifies the store. -/
inductive GetOutcome where
  | response (status : Nat) (body : Option (List Todo))
  | panicked (msg : String)
  deriving DecidableEq, Repr

/-- Handler `get_todos` (main.rs): drains the cursor of
`find({"user_id": uid})` into a Vec and returns it as `Json` (status 200).
Every driver call is wrapped in `.expect(...)`, so a storage failure at any
of the three points panics with the corresponding message instead of
producing a response. -/
def get_todos (store : List Todo) (uid : String) (fl : Option GetFail) : GetOutcome :=
  match fl with
  | some GetFail.find => GetOutcome.panicked "Failed to find todos"
  | some GetFail.advance => GetOutcome.panicked "Cursor advance failed"
  | some GetFail.deserialize => GetOutcome.panicked "Failed to deserialize todo"
  | none => GetOutcome.response 200 (some (findByUser store uid))

/-- Outcome of POST /todos: an HTTP response (status, optional item body,
resulting store) or a handler panic (store unchanged, no response). -/
inductive CreateOutcome where
  | response (status : Nat) (body : Option Todo) (store : List Todo)
  | panicked (msg : String) (store : List Todo)
  deriving DecidableEq, Repr

/-- Handler `create_todo` (main.rs): builds the document with `id: None`,
`done: false` (unconditionally — `NewTodo` has no `done` field), inserts it,
and returns the document with the store-assigned ObjectId filled in, as
`Json` (status 200). `insert_one` is wrapped in `.expect`, so an insert
failure panics. `oid` is the ObjectId the store assigns on a successful
insert. -/
def create_todo (store : List Todo) (uid : String) (payload : NewTodo)
    (insertOk : Bool) (oid : Nat) : CreateOutcome :=
  let todo_without_id : Todo :=
    { id := none, user_id := uid, title := payload.title, done := false }
  if insertOk then
    let todo_with_id : Todo := { todo_without_id with id := some oid }
    CreateOutcome.response 200 (some todo_with_id) (store ++ [todo_with_id])
  else
    CreateOutcome.panicked "Failed to insert todo" store

/-- Handler `update_todo` (main.rs): parse the path identifier — on failure
400 with no storage call; otherwise `update_one` with the filter
`{_id: oid, user_id: uid}` setting `done`. `matched_count == 1` maps to
200, any other `Ok` to 404, a driver error (`dbOk = false`) to 500. The
response is a bare `StatusCode` (no body); the second component is the
resulting store. -/
def update_todo (store : List Todo) (uid : String) (idStr : String)
    (payload : UpdateTodoPayload) (dbOk : Bool) : Nat × List Todo :=
  match parseObjectId idStr with
  | none => (400, store)
  | some oid =>
    if dbOk then
      let r := updateOne store oid uid payload.done
      (if r.1 == 1 then 200 else 404, r.2)
    else
      (500, store)

/-- Handler `delete_todo` (main.rs): parse the path identifier — on failure
400 with no storage call; otherwise `delete_one` with the same filter.
`deleted_count == 1` maps to 200, any other `Ok` to 404, a driver error to
500. Bare `StatusCode` response. -/
def delete_todo (store : List Todo) (uid : String) (idStr : String)
    (dbOk : Bool) : Nat × List Todo :=
  match parseObjectId idStr with
  | none => (400, store)
  | some oid =>
    if dbOk then
      let r := deleteOne store oid uid
      (if r.1 == 1 then 200 else 404, r.2)
    else
      (500, store)

/-- GET /todos as routed: the `CurrentUserId` extractor runs before the
handler; a 401 rejection short-circuits with no handler or storage work. -/
def route_get_todos (store : List Todo) (h : HeaderValue)
    (fl : Option GetFail) : GetOutcome :=
  match currentUserId h with
  | Except.error e => GetOutcome.response e.1 none
  | Except.ok uid => get_todos store uid fl

/-- POST /todos as routed: extractors run in order — `CurrentUserId` first
(401 short-circuit), then the `Json` body extractor: a well-formed JSON
object missing the required `title` field is a serde data error, which
axum's `Json` rejection maps to 422 Unprocessable Entity, with no storage
call. -/
def route_create_todo (store : List Todo) (h : HeaderValue)
    (body : RawCreateBody) (insertOk : Bool) (oid : Nat) : CreateOutcome :=
  match currentUserId h with
  | Except.error e => CreateOutcome.response e.1 none store
  | Except.ok uid =>
    match parseNewTodo body with
    | none => CreateOutcome.response 422 none store
    | some payload => create_todo store uid payload insertOk oid

/-- PUT /todos/{id} as routed: `CurrentUserId` first (401 short-circuit),
then the handler. The `{done}` body is taken already deserialized. -/
def route_update_todo (store : List Todo) (h : HeaderValue) (idStr : String)
    (payload : UpdateTodoPayload) (dbOk : Bool) : Nat × List Todo :=
  match currentUserId h with
  | Except.error e => (e.1, store)
  | Except.ok uid => update_todo store uid idStr payload dbOk

/-- DELETE /todos/{id} as routed: `CurrentUserId` first (401
short-circuit), then the handler. -/
def route_delete_todo (store : List Todo) (h : HeaderValue) (idStr : String)
    (dbOk : Bool) : Nat × List Todo :=
  match currentUserId h with
  | Except.error e => (e.1, store)
  | Except.ok uid => delete_todo store uid idStr dbOk

/-! ### Helper lemmas about the collection primitives -/

/-- Any list with an element satisfying `p` splits at its first such element. -/
lemma first_match_decomp (p : Todo → Bool) :
    ∀ (store : List Todo), (∃ t ∈ store, p t = true) →
      ∃ l1 t l2, store = l1 ++ t :: l2 ∧ p t = true ∧ ∀ u ∈ l1, p u = false := by
  intro store
  induction store with
  | nil => rintro ⟨t, ht, _⟩; cases ht
  | cons a rest ih =>
    intro h
    by_cases hp : p a = true
    · exact ⟨[], a, rest, rfl, hp, by simp⟩
    · obtain ⟨t, ht, hpt⟩ := h
      rcases List.mem_cons.mp ht with rfl | htr
      · exact absurd hpt hp
      · obtain ⟨l1, t', l2, heq, hpt', hall⟩ := ih ⟨t, htr, hpt⟩
        refine ⟨a :: l1, t', l2, by simp [heq], hpt', ?_⟩
        intro u hu
        rcases List.mem_cons.mp hu with rfl | hul
        · revert hp; cases p u <;> simp
        · exact hall u hul

/-- `update_one` on a collection with no document matching the filter:
matched count 0, collection unchanged. -/
lemma updateOne_no_match (store : List Todo) (oid : Nat) (uid : String) (d : Bool)
    (h : ∀ u ∈ store, matchesFilter oid uid u = false) :
    updateOne store oid uid d = (0, store) := by
  induction store with
  | nil => rfl
  | cons a rest ih =>
    have ha := h a (List.mem_cons_self a rest)
    have hr := ih (fun u hu => h u (List.mem_cons_of_mem a hu))
    simp [updateOne, ha, hr]

/-- `delete_one` on a collection with no document matching the filter:
deleted count 0, collection unchanged. -/
lemma deleteOne_no_match (store : List Todo) (oid : Nat) (uid : String)
    (h : ∀ u ∈ store, matchesFilter oid uid u = false) :
    deleteOne store oid uid = (0, store) := by
  induction store with
  | nil => rfl
  | cons a rest ih =>
    have ha := h a (List.mem_cons_self a rest)
    have hr := ih (fun u hu => h u (List.mem_cons_of_mem a hu))
    simp [deleteOne, ha, hr]

/-- `update_one` where the first matching document is `t`: matched count 1,
exactly that document gets its `done` flag set. -/
lemma updateOne_first_match (oid : Nat) (uid : String) (d : Bool) :
    ∀ (l1 : List Todo) (t : Todo) (l2 : List Todo),
      matchesFilter oid uid t = true → (∀ u ∈ l1, matchesFilter oid uid u = false) →
      updateOne (l1 ++ t :: l2) oid uid d = (1, l1 ++ { t with done := d } :: l2) := by
  intro l1
  induction l1 with
  | nil => intro t l2 ht _; simp [updateOne, ht]
  | cons a rest ih =>
    intro t l2 ht hall
    have ha := hall a (List.mem_cons_self a rest)
    have hr := ih t l2 ht (fun u hu => hall u (List.mem_cons_of_mem a hu))
    simp [updateOne, ha, hr]

/-- `delete_one` where the first matching document is `t`: deleted count 1,
exactly that document removed. -/
lemma deleteOne_first_match (oid : Nat) (uid : String) :
    ∀ (l1 : List Todo) (t : Todo) (l2 : List Todo),
      matchesFilter oid uid t = true → (∀ u ∈ l1, matchesFilter oid uid u = false) →
      deleteOne (l1 ++ t :: l2) oid uid = (1, l1 ++ l2) := by
  intro l1
  induction l1 with
  | nil => intro t l2 ht _; simp [deleteOne, ht]
  | cons a rest ih =>
    intro t l2 ht hall
    have ha := hall a (List.mem_cons_self a rest)
    have hr := ih t l2 ht (fun u hu => hall u (List.mem_cons_of_mem a hu))
    simp [deleteOne, ha, hr]

/-- With unique `_id`s, removing the occurrence of `t` leaves no document
carrying `t`'s identifier. -/
lemma ids_ne_of_nodup_middle (l1 l2 : List Todo) (t : Todo)
    (huniq : ((l1 ++ t :: l2).map Todo.id).Nodup) :
    ∀ u ∈ l1 ++ l2, u.id ≠ t.id := by
  have hmap : (l1 ++ t :: l2).map Todo.id =
      l1.map Todo.id ++ t.id :: l2.map Todo.id := by simp
  rw [hmap] at huniq
  have h2 := List.nodup_middle.mp huniq
  have hnotmem : t.id ∉ l1.map Todo.id ++ l2.map Todo.id := (List.nodup_cons.mp h2).1
  intro u hu heq
  apply hnotmem
  rw [← heq]
  rcases List.mem_append.mp hu with h | h
  · exact List.mem_append.mpr (Or.inl (List.mem_map.mpr ⟨u, h, rfl⟩))
  · exact List.mem_append.mpr (Or.inr (List.mem_map.mpr ⟨u, h, rfl⟩))

/-- With unique `_id`s, two members sharing an `_id` are the same document. -/
lemma eq_of_mem_of_id_eq {store : List Todo} (huniq : (store.map Todo.id).Nodup)
    {t u : Todo} (ht : t ∈ store) (hu : u ∈ store) (h : t.id = u.id) : t = u :=
  List.inj_on_of_nodup_map huniq ht hu h

/-- If `t`, owned by `A`, carries identifier `oid` and identifiers are
unique, then no document matches the filter `{_id: oid, user_id: B}` for
any other caller `B`. -/
lemma no_match_other_owner (store : List Todo) (t : Todo) (oid : Nat) (A B : String)
    (hmem : t ∈ store) (hid : t.id = some oid) (howner : t.user_id = A) (hne : B ≠ A)
    (huniq : (store.map Todo.id).Nodup) :
    ∀ u ∈ store, matchesFilter oid B u = false := by
  intro u hu
  by_cases hid' : u.id = some oid
  · have : u = t := eq_of_mem_of_id_eq huniq hu hmem (by rw [hid', hid])
    subst this
    have : u.user_id ≠ B := by rw [howner]; exact fun h => hne h.symm
    simp [matchesFilter, this]
  · simp [matchesFilter, hid']

/-! ### Claim theorems -/

/-- C2 counterexample: the claim says an absent **or empty** `x-user-id`
header yields 401 before any handler logic runs. On a present-but-empty
header the extractor instead succeeds with the empty string as the
identity, the handler runs, consults storage, and answers 200 — not 401. -/
theorem c2_counterexample :
    currentUserId (HeaderValue.value "") = Except.ok "" ∧
    route_get_todos [] (HeaderValue.value "") none = GetOutcome.response 200 (some []) :=
  ⟨rfl, rfl⟩

/-- C2 amended: a request whose `x-user-id` header is absent — or carries
bytes `HeaderValue::to_str` cannot decode — is answered 401 on every route
before any handler logic or storage operation (the response is the same for
every store and every storage-failure oracle, and the store is returned
unchanged), and no default identity is substituted; a present-but-empty
header value, however, is accepted and the empty string becomes the
caller's identity. -/
theorem c2_absent_header_rejected_401 (store : List Todo) (fl : Option GetFail)
    (body : RawCreateBody) (insertOk : Bool) (oid : Nat) (s : String)
    (p : UpdateTodoPayload) (dbOk dbOk' : Bool) :
    route_get_todos store HeaderValue.absent fl = GetOutcome.response 401 none ∧
    route_create_todo store HeaderValue.absent body insertOk oid =
      CreateOutcome.response 401 none store ∧
    route_update_todo store HeaderValue.absent s p dbOk = (401, store) ∧
    route_delete_todo store HeaderValue.absent s dbOk' = (401, store) ∧
    route_get_todos store HeaderValue.invalidBytes fl = GetOutcome.response 401 none ∧
    currentUserId (HeaderValue.value "") = Except.ok "" :=
  ⟨rfl, rfl, rfl, rfl, rfl, rfl⟩

/-- C3: every successful create stores and returns the item with
`done = false` regardless of any `done` value in the client payload (the
field is not part of `NewTodo`, so serde drops it), with HTTP 200 and the
store-assigned identifier populated in the response body. -/
theorem c3_create_forces_done_false (store : List Todo) (uid ttl : String)
    (df : Option Bool) (oid : Nat) :
    route_create_todo store (HeaderValue.value uid)
        { title := some ttl, done := df } true oid =
      CreateOutcome.response 200
        (some { id := some oid, user_id := uid, title := ttl, done := false })
        (store ++ [{ id := some oid, user_id := uid, title := ttl, done := false }]) :=
  rfl

/-- C4: an update or delete whose path identifier fails
`ObjectId::parse_str` answers 400 immediately; the store is unchanged and
no storage call is made (the response does not depend on the storage
oracle, which is universally quantified). -/
theorem c4_bad_identifier_400_no_storage (store : List Todo) (uid s : String)
    (p : UpdateTodoPayload) (dbOk dbOk' : Bool)
    (hs : parseObjectId s = none) :
    route_update_todo store (HeaderValue.value uid) s p dbOk = (400, store) ∧
    route_delete_todo store (HeaderValue.value uid) s dbOk' = (400, store) := by
  constructor
  · simp [route_update_todo, currentUserId, update_todo, hs]
  · simp [route_delete_todo, currentUserId, delete_todo, hs]

/-- C4 witness: the malformed identifier string is rejected with 400 on
both routes, whatever the storage oracle would have said. -/
theorem c4_bad_identifier_witness :
    route_update_todo [] (HeaderValue.value "u") "not-a-valid-objectid"
        { done := true } true = (400, []) ∧
    route_delete_todo [] (HeaderValue.value "u") "not-a-valid-objectid"
        false = (400, []) :=
  c4_bad_identifier_400_no_storage [] "u" "not-a-valid-objectid"
    { done := true } true false rfl

/-- C8: the code, not the claim — when the storage operation behind
GET /todos fails at the `find`, a cursor advance, or deserialization, or
the insert behind POST /todos fails, the handler panics through `.expect`
with the corresponding message and produces no HTTP response at all; in
particular it never produces the HTTP 500 response the claim (and §7 of
the spec, which calls converting these failures to 500 a required
correction) demands. -/
theorem c8_storage_failure_panics (store : List Todo) (uid ttl : String) (oid : Nat) :
    route_get_todos store (HeaderValue.value uid) (some GetFail.find) =
      GetOutcome.panicked "Failed to find todos" ∧
    route_get_todos store (HeaderValue.value uid) (some GetFail.advance) =
      GetOutcome.panicked "Cursor advance failed" ∧
    route_get_todos store (HeaderValue.value uid) (some GetFail.deserialize) =
      GetOutcome.panicked "Failed to deserialize todo" ∧
    route_create_todo store (HeaderValue.value uid)
        { title := some ttl, done := none } false oid =
      CreateOutcome.panicked "Failed to insert todo" store :=
  ⟨rfl, rfl, rfl, rfl⟩

/-- C9 counterexample: the claim says a creation payload whose title is
missing **or empty text** is rejected with HTTP 400 and nothing is stored.
An empty title is in fact accepted: the item is stored with `title = ""`
and returned with HTTP 200. -/
theorem c9_counterexample :
    route_create_todo [] (HeaderValue.value "u")
        { title := some "", done := none } true 7 =
      CreateOutcome.response 200
        (some { id := some 7, user_id := "u", title := "", done := false })
        [{ id := some 7, user_id := "u", title := "", done := false }] :=
  rfl

/-- C9 amended: a creation payload missing the `title` field is rejected at
the framework boundary — axum's `Json` extractor maps the serde data error
to HTTP 422 (not 400) — and no item is stored (the store is returned
unchanged, whatever the storage oracle); an empty title is not rejected at
all: the item is stored with the empty title. -/
theorem c9_missing_title_rejected (store : List Todo) (uid : String)
    (df : Option Bool) (insertOk : Bool) (oid : Nat) :
    route_create_todo store (HeaderValue.value uid)
        { title := none, done := df } insertOk oid =
      CreateOutcome.response 422 none store :=
  rfl

/-- C1: tenant isolation. For an item `t` created under owner `A` (with
identifier `oid`, identifiers unique in the collection) and any caller
`B ≠ A`: listing as `B` never includes `t`, and an update or delete by `B`
against `t`'s identifier answers 404 with the store unchanged — no response
or mutation crosses the tenant boundary. -/
theorem c1_tenant_isolation (store : List Todo) (A B s : String) (oid : Nat)
    (t : Todo) (p : UpdateTodoPayload)
    (hmem : t ∈ store) (howner : t.user_id = A) (hne : B ≠ A)
    (hid : t.id = some oid) (huniq : (store.map Todo.id).Nodup)
    (hs : parseObjectId s = some oid) :
    t ∉ findByUser store B ∧
    route_update_todo store (HeaderValue.value B) s p true = (404, store) ∧
    route_delete_todo store (HeaderValue.value B) s true = (404, store) := by
  have hnomatch := no_match_other_owner store t oid A B hmem hid howner hne huniq
  refine ⟨?_, ?_, ?_⟩
  · intro hmemB
    have hB : (t.user_id == B) = true := (List.mem_filter.mp hmemB).2
    rw [howner] at hB
    exact hne (beq_iff_eq.mp hB).symm
  · simp [route_update_todo, currentUserId, update_todo, hs,
      updateOne_no_match store oid B p.done hnomatch]
  · simp [route_delete_todo, currentUserId, delete_todo, hs,
      deleteOne_no_match store oid B hnomatch]

/-- C1 witness: a concrete store holding alice's item; listing, updating
and deleting as bob never touch it. -/
theorem c1_tenant_isolation_witness :
    ({ id := some 1, user_id := "alice", title := "buy milk", done := false } : Todo) ∉
      findByUser [{ id := some 1, user_id := "alice", title := "buy milk", done := false }]
        "bob" ∧
    route_update_todo
        [{ id := some 1, user_id := "alice", title := "buy milk", done := false }]
        (HeaderValue.value "bob") "000000000000000000000001" { done := true } true =
      (404, [{ id := some 1, user_id := "alice", title := "buy milk", done := false }]) ∧
    route_delete_todo
        [{ id := some 1, user_id := "alice", title := "buy milk", done := false }]
        (HeaderValue.value "bob") "000000000000000000000001" true =
      (404, [{ id := some 1, user_id := "alice", title := "buy milk", done := false }]) :=
  c1_tenant_isolation
    [{ id := some 1, user_id := "alice", title := "buy milk", done := false }]
    "alice" "bob" "000000000000000000000001" 1
    { id := some 1, user_id := "alice", title := "buy milk", done := false }
    { done := true }
    (by decide) rfl (by decide) rfl (by decide) rfl

/-- C5: with a well-formed identifier, the update and delete routes share
the outcome mapping: a matching record exists → 200; no record matches →
404 with the store unchanged; the driver call fails → 500 with the store
unchanged. The handlers return a bare status (the `Nat × List Todo` result
is status and resulting store; there is no body). -/
theorem c5_outcome_mapping (store : List Todo) (uid s : String) (oid : Nat)
    (p : UpdateTodoPayload) (hs : parseObjectId s = some oid) :
    ((∃ t ∈ store, matchesFilter oid uid t = true) →
      (route_update_todo store (HeaderValue.value uid) s p true).1 = 200 ∧
      (route_delete_todo store (HeaderValue.value uid) s true).1 = 200) ∧
    ((∀ t ∈ store, matchesFilter oid uid t = false) →
      route_update_todo store (HeaderValue.value uid) s p true = (404, store) ∧
      route_delete_todo store (HeaderValue.value uid) s true = (404, store)) ∧
    (route_update_todo store (HeaderValue.value uid) s p false = (500, store) ∧
      route_delete_todo store (HeaderValue.value uid) s false = (500, store)) := by
  refine ⟨?_, ?_, ?_⟩
  · intro hex
    obtain ⟨l1, t, l2, heq, ht, hall⟩ := first_match_decomp _ store hex
    subst heq
    constructor
    · simp [route_update_todo, currentUserId, update_todo, hs,
        updateOne_first_match oid uid p.done l1 t l2 ht hall]
    · simp [route_delete_todo, currentUserId, delete_todo, hs,
        deleteOne_first_match oid uid l1 t l2 ht hall]
  · intro hnone
    constructor
    · simp [route_update_todo, currentUserId, update_todo, hs,
        updateOne_no_match store oid uid p.done hnone]
    · simp [route_delete_todo, currentUserId, delete_todo, hs,
        deleteOne_no_match store oid uid hnone]
  · constructor
    · simp [route_update_todo, currentUserId, update_todo, hs]
    · simp [route_delete_todo, currentUserId, delete_todo, hs]

/-- C5 witness: the full mapping at a concrete one-item store and
well-formed identifier. -/
theorem c5_outcome_mapping_witness :
    ((∃ t ∈ [({ id := some 1, user_id := "u", title := "a", done := false } : Todo)],
        matchesFilter 1 "u" t = true) →
      (route_update_todo [{ id := some 1, user_id := "u", title := "a", done := false }]
          (HeaderValue.value "u") "000000000000000000000001" { done := true } true).1 = 200 ∧
      (route_delete_todo [{ id := some 1, user_id := "u", title := "a", done := false }]
          (HeaderValue.value "u") "000000000000000000000001" true).1 = 200) ∧
    ((∀ t ∈ [({ id := some 1, user_id := "u", title := "a", done := false } : Todo)],
        matchesFilter 1 "u" t = false) →
      route_update_todo [{ id := some 1, user_id := "u", title := "a", done := false }]
          (HeaderValue.value "u") "000000000000000000000001" { done := true } true =
        (404, [{ id := some 1, user_id := "u", title := "a", done := false }]) ∧
      route_delete_todo [{ id := some 1, user_id := "u", title := "a", done := false }]
          (HeaderValue.value "u") "000000000000000000000001" true =
        (404, [{ id := some 1, user_id := "u", title := "a", done := false }])) ∧
    (route_update_todo [{ id := some 1, user_id := "u", title := "a", done := false }]
        (HeaderValue.value "u") "000000000000000000000001" { done := true } false =
      (500, [{ id := some 1, user_id := "u", title := "a", done := false }]) ∧
     route_delete_todo [{ id := some 1, user_id := "u", title := "a", done := false }]
        (HeaderValue.value "u") "000000000000000000000001" false =
      (500, [{ id := some 1, user_id := "u", title := "a", done := false }])) :=
  c5_outcome_mapping [{ id := some 1, user_id := "u", title := "a", done := false }]
    "u" "000000000000000000000001" 1 { done := true } rfl

/-- C6: frame property of update. Whenever the update route answers 200,
the store decomposes around one matched item: only that item's `done` flag
is set to the requested value — its `id`, `user_id` and `title` are kept —
and every other item (the prefix `l1` and suffix `l2`) is unchanged. -/
theorem c6_update_frame (store : List Todo) (uid s : String) (p : UpdateTodoPayload)
    (h200 : (route_update_todo store (HeaderValue.value uid) s p true).1 = 200) :
    ∃ oid l1 t l2, parseObjectId s = some oid ∧ matchesFilter oid uid t = true ∧
      store = l1 ++ t :: l2 ∧
      (route_update_todo store (HeaderValue.value uid) s p true).2 =
        l1 ++ { id := t.id, user_id := t.user_id, title := t.title, done := p.done } :: l2 := by
  cases hps : parseObjectId s with
  | none =>
    rw [show route_update_todo store (HeaderValue.value uid) s p true =
        update_todo store uid s p true from rfl] at h200
    simp [update_todo, hps] at h200
  | some oid =>
    by_cases hex : ∃ t ∈ store, matchesFilter oid uid t = true
    · obtain ⟨l1, t, l2, heq, ht, hall⟩ := first_match_decomp _ store hex
      refine ⟨oid, l1, t, l2, rfl, ht, heq, ?_⟩
      simp [route_update_todo, currentUserId, update_todo, hps, heq,
        updateOne_first_match oid uid p.done l1 t l2 ht hall]
    · exfalso
      have hnone : ∀ t ∈ store, matchesFilter oid uid t = false := by
        intro u hu
        by_contra hne
        exact hex ⟨u, hu, by revert hne; cases matchesFilter oid uid u <;> simp⟩
      rw [show route_update_todo store (HeaderValue.value uid) s p true =
          update_todo store uid s p true from rfl] at h200
      simp [update_todo, hps, updateOne_no_match store oid uid p.done hnone] at h200

/-- C6 witness: a successful concrete update decomposes the two-item store
with only the matched item's `done` flag changed. -/
theorem c6_update_frame_witness :
    ∃ oid l1 t l2, parseObjectId "000000000000000000000002" = some oid ∧
      matchesFilter oid "u" t = true ∧
      [({ id := some 1, user_id := "u", title := "a", done := false } : Todo),
       { id := some 2, user_id := "u", title := "b", done := false }] = l1 ++ t :: l2 ∧
      (route_update_todo
          [{ id := some 1, user_id := "u", title := "a", done := false },
           { id := some 2, user_id := "u", title := "b", done := false }]
          (HeaderValue.value "u") "000000000000000000000002" { done := true } true).2 =
        l1 ++ { id := t.id, user_id := t.user_id, title := t.title, done := true } :: l2 :=
  c6_update_frame
    [{ id := some 1, user_id := "u", title := "a", done := false },
     { id := some 2, user_id := "u", title := "b", done := false }]
    "u" "000000000000000000000002" { done := true } (by decide)

/-- C7: deleting an item present in the store (identifiers unique) answers
200, a subsequent list by the same owner no longer contains it, and issuing
the same delete a second time answers 404 with the store unchanged. -/
theorem c7_delete_removes_then_404 (store : List Todo) (uid s : String) (oid : Nat)
    (t : Todo) (hmem : t ∈ store) (hid : t.id = some oid) (howner : t.user_id = uid)
    (huniq : (store.map Todo.id).Nodup) (hs : parseObjectId s = some oid) :
    (route_delete_todo store (HeaderValue.value uid) s true).1 = 200 ∧
    t ∉ findByUser (route_delete_todo store (HeaderValue.value uid) s true).2 uid ∧
    route_delete_todo (route_delete_todo store (HeaderValue.value uid) s true).2
        (HeaderValue.value uid) s true =
      (404, (route_delete_todo store (HeaderValue.value uid) s true).2) := by
  have htm : matchesFilter oid uid t = true := by simp [matchesFilter, hid, howner]
  obtain ⟨l1, t0, l2, heq, ht0, hall⟩ := first_match_decomp _ store ⟨t, hmem, htm⟩
  have ht0id : t0.id = some oid := by
    simp only [matchesFilter, Bool.and_eq_true, beq_iff_eq] at ht0
    exact ht0.1
  have ht0mem : t0 ∈ store := by
    rw [heq]; exact List.mem_append.mpr (Or.inr (List.mem_cons_self t0 l2))
  have ht0t : t0 = t := eq_of_mem_of_id_eq huniq ht0mem hmem (by rw [ht0id, hid])
  subst ht0t
  have hroute : route_delete_todo store (HeaderValue.value uid) s true = (200, l1 ++ l2) := by
    simp [route_delete_todo, currentUserId, delete_todo, hs, heq,
      deleteOne_first_match oid uid l1 t0 l2 ht0 hall]
  have hne : ∀ u ∈ l1 ++ l2, u.id ≠ some oid := by
    intro u hu
    rw [← ht0id]
    exact ids_ne_of_nodup_middle l1 l2 t0 (by rw [← heq]; exact huniq) u hu
  have hnomatch : ∀ u ∈ l1 ++ l2, matchesFilter oid uid u = false := by
    intro u hu
    simp [matchesFilter, hne u hu]
  refine ⟨by rw [hroute], ?_, ?_⟩
  · rw [hroute]
    intro hmemf
    exact hne t0 (List.mem_filter.mp hmemf).1 ht0id
  · rw [hroute]
    simp [route_delete_todo, currentUserId, delete_todo, hs,
      deleteOne_no_match (l1 ++ l2) oid uid hnomatch]

/-- C7 witness: deleting the only item of a concrete store answers 200,
the item is gone from the owner's list, and the repeated delete answers
404. -/
theorem c7_delete_removes_witness :
    (route_delete_todo [{ id := some 1, user_id := "u", title := "a", done := false }]
        (HeaderValue.value "u") "000000000000000000000001" true).1 = 200 ∧
    ({ id := some 1, user_id := "u", title := "a", done := false } : Todo) ∉
      findByUser
        (route_delete_todo [{ id := some 1, user_id := "u", title := "a", done := false }]
          (HeaderValue.value "u") "000000000000000000000001" true).2 "u" ∧
    route_delete_todo
        (route_delete_todo [{ id := some 1, user_id := "u", title := "a", done := false }]
          (HeaderValue.value "u") "000000000000000000000001" true).2
        (HeaderValue.value "u") "000000000000000000000001" true =
      (404,
        (route_delete_todo [{ id := some 1, user_id := "u", title := "a", done := false }]
          (HeaderValue.value "u") "000000000000000000000001" true).2) :=
  c7_delete_removes_then_404
    [{ id := some 1, user_id := "u", title := "a", done := false }]
    "u" "000000000000000000000001" 1
    { id := some 1, user_id := "u", title := "a", done := false }
    (by decide) rfl rfl (by decide) rfl

/-- C10: update success is decided by match, not by modification — whenever
some record matches the filter (in particular when its `done` flag already
equals the requested value), the route answers 200; and re-applying the
same update is idempotent: the second application answers 200 again and
leaves the store exactly as after the first. -/
theorem c10_update_idempotent (store : List Todo) (uid s : String) (oid : Nat)
    (d : Bool) (hs : parseObjectId s = some oid)
    (hmatch : ∃ t ∈ store, matchesFilter oid uid t = true) :
    (route_update_todo store (HeaderValue.value uid) s { done := d } true).1 = 200 ∧
    route_update_todo
        (route_update_todo store (HeaderValue.value uid) s { done := d } true).2
        (HeaderValue.value uid) s { done := d } true =
      (200, (route_update_todo store (HeaderValue.value uid) s { done := d } true).2) := by
  obtain ⟨l1, t, l2, heq, ht, hall⟩ := first_match_decomp _ store hmatch
  have h1 : route_update_todo store (HeaderValue.value uid) s { done := d } true =
      (200, l1 ++ { t with done := d } :: l2) := by
    simp [route_update_todo, currentUserId, update_todo, hs, heq,
      updateOne_first_match oid uid d l1 t l2 ht hall]
  have ht' : matchesFilter oid uid { t with done := d } = true := ht
  have h2 : updateOne (l1 ++ { t with done := d } :: l2) oid uid d =
      (1, l1 ++ { t with done := d } :: l2) :=
    updateOne_first_match oid uid d l1 { t with done := d } l2 ht' hall
  refine ⟨by rw [h1], ?_⟩
  rw [h1]
  simp [route_update_todo, currentUserId, update_todo, hs, h2]

/-- C10 witness: the matched item's `done` flag already equals the
requested value, the update still answers 200, and the repeated update
returns 200 with the store unchanged. -/
theorem c10_update_idempotent_witness :
    (route_update_todo [{ id := some 1, user_id := "u", title := "a", done := true }]
        (HeaderValue.value "u") "000000000000000000000001" { done := true } true).1 = 200 ∧
    route_update_todo
        (route_update_todo [{ id := some 1, user_id := "u", title := "a", done := true }]
          (HeaderValue.value "u") "000000000000000000000001" { done := true } true).2
        (HeaderValue.value "u") "000000000000000000000001" { done := true } true =
      (200,
        (route_update_todo [{ id := some 1, user_id := "u", title := "a", done := true }]
          (HeaderValue.value "u") "000000000000000000000001" { done := true } true).2) :=
  c10_update_idempotent [{ id := some 1, user_id := "u", title := "a", done := true }]
    "u" "000000000000000000000001" 1 true rfl (by decide)

end TheTodo
